import Mathlib

/-!
# Verification of the product-catalog mapper and store layer

A shallow embedding of the Go packages `mapper` (wire ⟷ model conversion of
products whose attributes are arbitrary dynamic values) and `store/product`
(CRUD repository over MongoDB with injectable store-operation seams), together
with proofs of the specified properties.

Modelling conventions:
* `google.protobuf.Value` (the wire-side dynamic value) is the inductive
  `StructpbValue`; the Go-side `interface{}` produced by `Value.AsInterface`
  and consumed by `structpb.NewValue` is the inductive `GoValue`.
* IEEE-754 numeric payloads are modelled as rationals standing for the finite
  doubles/floats; NaN and the infinities are outside the JSON data model of
  `google.protobuf.Value` and hence outside the representable domain.
* Go maps are modelled as association lists of entries in iteration order;
  a `nil` Go map is `Option.none`, a non-nil map is `Option.some entries`.
* Go `error` values are the inductive `GoError`: the sentinel
  `mongo.ErrNoDocuments`, leaf errors from `fmt.Errorf`/`errors.New`, and
  `errors.Wrap`/`Wrapf` wrapping a cause with a message.
* The injectable store seams (`findOne`, `insertIntoCollection`, `updateOne`,
  `deleteOne`, `find`) are passed to each repository function as explicit
  outcome parameters; a store-level instantiation over a collection modelled
  as a `List` of documents supplies MongoDB's single-document semantics.
-/

/-- Finite IEEE-754 double-precision payloads, modelled as rationals.
The mapper never inspects numeric values; only equality matters. -/
abbrev Float64 := Rat

/-- Finite IEEE-754 single-precision payloads (the `price` field). -/
abbrev Float32 := Rat

/-- The wire-side dynamic value: `google.protobuf.Value`, a tagged union over
null, number, string, bool, ordered list and string-keyed struct. -/
inductive StructpbValue where
  | nullValue
  | numberValue (n : Float64)
  | stringValue (s : String)
  | boolValue (b : Bool)
  | listValue (l : List StructpbValue)
  | structValue (fields : List (String × StructpbValue))
deriving Repr

/-- The store-side dynamic value: the Go `interface{}` shapes that occur as
attribute values. `vUnsupported` stands for a Go value of any runtime type
that `structpb.NewValue` cannot convert (channels, funcs, custom structs, …);
its payload is the type name reported in the library's error message. -/
inductive GoValue where
  | vNil
  | vBool (b : Bool)
  | vNumber (n : Float64)
  | vString (s : String)
  | vList (l : List GoValue)
  | vMap (m : List (String × GoValue))
  | vUnsupported (typeName : String)
deriving Repr

mutual

/-- `structpb.Value.AsInterface`: total conversion of a wire value to the Go
dynamic representation (null→nil, number→float64, string→string, bool→bool,
list→[]interface with recursively converted elements, struct→map[string]
interface with recursively converted values). -/
def asInterface : StructpbValue → GoValue
  | .nullValue => .vNil
  | .numberValue n => .vNumber n
  | .stringValue s => .vString s
  | .boolValue b => .vBool b
  | .listValue l => .vList (asInterfaceList l)
  | .structValue fields => .vMap (asInterfaceFields fields)

/-- Elementwise `AsInterface` over a list value's elements. -/
def asInterfaceList : List StructpbValue → List GoValue
  | [] => []
  | v :: vs => asInterface v :: asInterfaceList vs

/-- Valuewise `AsInterface` over a struct value's fields. -/
def asInterfaceFields : List (String × StructpbValue) → List (String × GoValue)
  | [] => []
  | (k, v) :: kvs => (k, asInterface v) :: asInterfaceFields kvs

end

mutual

/-- `structpb.NewValue`: converts a Go dynamic value to a wire value, failing
with an "invalid type" error on a Go value of an unconvertible runtime type.
Lean strings are valid UTF-8 by construction, so the library's invalid-UTF-8
error path cannot arise in the model. -/
def structpbNewValue : GoValue → Except String StructpbValue
  | .vNil => .ok .nullValue
  | .vBool b => .ok (.boolValue b)
  | .vNumber n => .ok (.numberValue n)
  | .vString s => .ok (.stringValue s)
  | .vList l =>
    match structpbNewValueList l with
    | .error e => .error e
    | .ok ws => .ok (.listValue ws)
  | .vMap m =>
    match structpbNewValueFields m with
    | .error e => .error e
    | .ok ws => .ok (.structValue ws)
  | .vUnsupported typeName => .error ("invalid type: " ++ typeName)

/-- `structpb.NewList`: elementwise conversion, failing on the first
unconvertible element. -/
def structpbNewValueList : List GoValue → Except String (List StructpbValue)
  | [] => .ok []
  | v :: vs =>
    match structpbNewValue v with
    | .error e => .error e
    | .ok w =>
      match structpbNewValueList vs with
      | .error e => .error e
      | .ok ws => .ok (w :: ws)

/-- `structpb.NewStruct`: valuewise conversion of a map's entries, failing on
the first unconvertible value. -/
def structpbNewValueFields : List (String × GoValue) → Except String (List (String × StructpbValue))
  | [] => .ok []
  | (k, v) :: kvs =>
    match structpbNewValue v with
    | .error e => .error e
    | .ok w =>
      match structpbNewValueFields kvs with
      | .error e => .error e
      | .ok ws => .ok ((k, w) :: ws)

end

mutual

/-- Round-trip at a single value: `NewValue (AsInterface w) = w` for every
wire value. -/
theorem newValue_asInterface (v : StructpbValue) :
    structpbNewValue (asInterface v) = .ok v := by
  cases v with
  | nullValue => rfl
  | numberValue n => rfl
  | stringValue s => rfl
  | boolValue b => rfl
  | listValue l =>
    simp only [asInterface, structpbNewValue, newValueList_asInterfaceList l]
  | structValue fields =>
    simp only [asInterface, structpbNewValue, newValueFields_asInterfaceFields fields]

/-- Round-trip for the elements of a list value. -/
theorem newValueList_asInterfaceList (l : List StructpbValue) :
    structpbNewValueList (asInterfaceList l) = .ok l := by
  cases l with
  | nil => rfl
  | cons v vs =>
    simp only [asInterfaceList, structpbNewValueList, newValue_asInterface v,
      newValueList_asInterfaceList vs]

/-- Round-trip for the fields of a struct value. -/
theorem newValueFields_asInterfaceFields (kvs : List (String × StructpbValue)) :
    structpbNewValueFields (asInterfaceFields kvs) = .ok kvs := by
  cases kvs with
  | nil => rfl
  | cons kv rest =>
    cases kv with
    | mk k v =>
      simp only [asInterfaceFields, structpbNewValueFields, newValue_asInterface v,
        newValueFields_asInterfaceFields rest]

end

/-- Go `error` values as they occur in this codebase: the sentinel
`mongo.ErrNoDocuments`, a leaf error carrying a message (`fmt.Errorf`,
`errors.New`, or a library error), and `errors.Wrap`/`errors.Wrapf` attaching
a message to an underlying cause. Go compares errors with `==`, modelled by
decidable equality on this type. -/
inductive GoError where
  | errNoDocuments
  | errorf (msg : String)
  | wrap (cause : GoError) (msg : String)
deriving DecidableEq, Repr

/-- `productcatalog.Product`: the wire-typed product message. `Attributes`
models the Go map `map[string]*structpb.Value` (`none` = nil map). -/
structure WireProduct where
  Uuid : String
  Name : String
  Description : String
  Price : Float32
  Attributes : Option (List (String × StructpbValue))
deriving Repr

/-- `models.Product`: the MongoDB document model. `Attributes` models the Go
map `map[string]interface\x7b\x7d` (`none` = nil map). -/
structure ModelProduct where
  Uuid : String
  Name : String
  Description : String
  Price : Float32
  Attributes : Option (List (String × GoValue))
deriving Repr

/-- Ranging over a Go map: a nil map iterates zero entries. -/
def entriesOrNil {α : Type} : Option (List (String × α)) → List (String × α)
  | none => []
  | some l => l

/-- `mapper.ProductProtobufToProductModel`: copies the typed fields and
converts each attribute with `AsInterface`; the output attribute map is
created with `make` and is therefore never nil. The Go function's error
result is always nil, modelled by always returning `.ok`. -/
def ProductProtobufToProductModel (product : WireProduct) : Except GoError ModelProduct :=
  .ok { Uuid := product.Uuid
        Name := product.Name
        Description := product.Description
        Price := product.Price
        Attributes := some (asInterfaceFields (entriesOrNil product.Attributes)) }

/-- The `for k, p := range dbProduct.Attributes` loop of
`ProductModelToProductProtobuf`: converts each attribute value with
`structpbNewValue`, failing on the first unconvertible value with the failing
key and the library error. -/
def newValueAttributes : List (String × GoValue) → Except (String × String) (List (String × StructpbValue))
  | [] => .ok []
  | (k, p) :: rest =>
    match structpbNewValue p with
    | .error e => .error (k, e)
    | .ok w =>
      match newValueAttributes rest with
      | .error ke => .error ke
      | .ok ws => .ok ((k, w) :: ws)

/-- `mapper.ProductModelToProductProtobuf`: copies the typed fields and
converts each attribute with `structpb.NewValue`; on the first failing
attribute it returns nil and the library error wrapped with
`parsing attribute "<k>"` (errors.Wrapf), producing no partial output. -/
def ProductModelToProductProtobuf (dbProduct : ModelProduct) : Except GoError WireProduct :=
  match newValueAttributes (entriesOrNil dbProduct.Attributes) with
  | .error (k, e) =>
    .error (.wrap (.errorf e) ("parsing attribute \"" ++ k ++ "\""))
  | .ok attrs =>
    .ok { Uuid := dbProduct.Uuid
          Name := dbProduct.Name
          Description := dbProduct.Description
          Price := dbProduct.Price
          Attributes := some attrs }

/-- `mapper.ProductModelListToListProductsResponse`: converts each model in
order, propagating the first conversion error unchanged. -/
def ProductModelListToListProductsResponse (dbProducts : List ModelProduct) : Except GoError (List WireProduct) :=
  match dbProducts with
  | [] => .ok []
  | dbProduct :: rest =>
    match ProductModelToProductProtobuf dbProduct with
    | .error e => .error e
    | .ok product =>
      match ProductModelListToListProductsResponse rest with
      | .error e => .error e
      | .ok products => .ok (product :: products)

/-- Outcome of the injectable `findOne` seam: MongoDB's
`FindOne(...).Decode(p)` either fills the product or returns an error
(`mongo.ErrNoDocuments` when no document matched). -/
inductive FindOneOutcome where
  | success (p : ModelProduct)
  | failure (e : GoError)
deriving Repr

/-- The distinguished not-found error built by `product.Get` via
`fmt.Errorf`: a leaf error that wraps no cause. -/
def notFoundError (uuid : String) : GoError :=
  .errorf ("product with uuid \"" ++ uuid ++ "\" does not exist")

/-- `product.Get`: runs the `findOne` seam with filter `{uuid: req.Uuid}`;
on `mongo.ErrNoDocuments` (compared with `==`) it returns the distinguished
not-found error, on any other error it returns `errors.Wrapf` of the cause,
and on success the decoded product. -/
def Get (findOneOutcome : FindOneOutcome) (uuid : String) : Except GoError ModelProduct :=
  match findOneOutcome with
  | .success p => .ok p
  | .failure e =>
    if e = GoError.errNoDocuments then
      .error (notFoundError uuid)
    else
      .error (.wrap e ("getting product with uuid \"" ++ uuid ++ "\""))

/-- The observable effects of one `product.Create` call: the returned
(value, error) pair, the state of the caller's record object after the call
(`Create` mutates `newProduct` through the pointer it received), the document
handed to `insertIntoCollection`, and how many insert attempts were made. -/
structure CreateOutcome where
  result : Except GoError ModelProduct
  callerRecord : ModelProduct
  insertedDoc : ModelProduct
  insertCalls : Nat
deriving Repr

/-- `product.Create`: overwrites `newProduct.Uuid` in place with
`uuidProvider()`, then hands the same record to the `insertIntoCollection`
seam exactly once (no retry); on seam failure it returns
`errors.Wrap(err, "inserting product")`, on success the mutated record. -/
def Create (gen : String) (insertOutcome : Option GoError) (newProduct : ModelProduct) :
    CreateOutcome :=
  let mutated := { newProduct with Uuid := gen }
  match insertOutcome with
  | some e =>
    { result := .error (.wrap e "inserting product")
      callerRecord := mutated
      insertedDoc := mutated
      insertCalls := 1 }
  | none =>
    { result := .ok mutated
      callerRecord := mutated
      insertedDoc := mutated
      insertCalls := 1 }

/-- `product.Update`: runs the `updateOne` seam with filter
`{uuid: productToUpdate.Uuid}` and update `{$set: productToUpdate}`; on
success it returns the record as written, on failure `errors.Wrapf` of the
cause naming the uuid. -/
def Update (updateOutcome : Option GoError) (productToUpdate : ModelProduct) :
    Except GoError ModelProduct :=
  match updateOutcome with
  | some e =>
    .error (.wrap e ("updating product with uuid \"" ++ productToUpdate.Uuid ++ "\""))
  | none => .ok productToUpdate

/-- `productcatalog.DeleteProductResponse`. -/
structure DeleteProductResponse where
  Result : String
deriving DecidableEq, Repr

/-- `product.Delete`: runs the `deleteOne` seam with filter `{uuid:
req.Uuid}`, ignoring the `DeleteResult` (matched/deleted counts); on success
it returns `{Result: "success"}`, on failure `errors.Wrapf` of the cause
naming the uuid. -/
def Delete (deleteOutcome : Option GoError) (uuid : String) :
    Except GoError DeleteProductResponse :=
  match deleteOutcome with
  | some e =>
    .error (.wrap e ("deleting product with uuid \"" ++ uuid ++ "\""))
  | none => .ok { Result := "success" }

/-- A MongoDB cursor's observable behaviour during one pass of
`product.List`'s loop: `docs` are the successive `Next`/`Decode` results
(each either a decoded product or a decode error) and `finalErr` is what
`Err()` reports after exhaustion. -/
structure CursorModel where
  docs : List (Except GoError ModelProduct)
  finalErr : Option GoError
deriving Repr

/-- The `for cur.Next(ctx)` loop of `product.List` followed by the
`cur.Err()` check: accumulates decoded products, aborts with
`errors.Wrap(err, "decoding product")` on the first decode failure, and
with `errors.Wrap(err, "cursor error")` if the exhausted cursor reports a
terminal error; otherwise returns the accumulated products. -/
def listLoop : List (Except GoError ModelProduct) → List ModelProduct → Option GoError →
    Except GoError (List ModelProduct)
  | [], acc, finalErr =>
    match finalErr with
    | some e => .error (.wrap e "cursor error")
    | none => .ok acc
  | step :: rest, acc, finalErr =>
    match step with
    | .error e => .error (.wrap e "decoding product")
    | .ok p => listLoop rest (acc ++ [p]) finalErr

/-- `product.List`: runs the `find` seam; on failure it returns
`errors.Wrap(err, "finding products")` without having acquired a cursor,
otherwise it registers `defer cur.Close(ctx)` and runs the loop. The second
component counts the invocations of `cur.Close` during the call: 0 when
`find` failed (the `defer` is registered only after the error check), 1 on
every path after acquisition (the single deferred close). -/
def ListProducts (findOutcome : Except GoError CursorModel) :
    Except GoError (List ModelProduct) × Nat :=
  match findOutcome with
  | .error e => (.error (.wrap e "finding products"), 0)
  | .ok cur => (listLoop cur.docs [] cur.finalErr, 1)

/-- MongoDB `FindOne` over a collection in natural order: the first document
matching the uuid filter, if any. -/
def findFirst : List ModelProduct → String → Option ModelProduct
  | [], _ => none
  | d :: ds, uuid => if d.Uuid = uuid then some d else findFirst ds uuid

/-- The `findOne` seam backed by a collection: decodes the first matching
document, or reports `mongo.ErrNoDocuments`. -/
def findOneStore (coll : List ModelProduct) (uuid : String) : FindOneOutcome :=
  match findFirst coll uuid with
  | some p => .success p
  | none => .failure .errNoDocuments

/-- The effect of `{$set: r}` on one stored document: `models.Product`
marshals all five fields (bson tags, no omitempty), so `$set` overwrites
every field of the document with `r`'s value, zero values included. -/
def applySet (d r : ModelProduct) : ModelProduct :=
  { d with Uuid := r.Uuid, Name := r.Name, Description := r.Description,
           Price := r.Price, Attributes := r.Attributes }

/-- MongoDB `UpdateOne` with filter `{uuid: r.Uuid}` and update `{$set: r}`
over a collection in natural order: applies `$set` to the first matching
document only. -/
def updateOneStore : List ModelProduct → ModelProduct → List ModelProduct
  | [], _ => []
  | d :: ds, r =>
    if d.Uuid = r.Uuid then applySet d r :: ds else d :: updateOneStore ds r

/-- MongoDB `DeleteOne` with filter `{uuid: uuid}` over a collection in
natural order: removes the first matching document, if any. It reports a
store error only on store-level failure, never for a zero-match delete; the
first component is the `DeletedCount` of the returned `DeleteResult`. -/
def deleteOneStore : List ModelProduct → String → Nat × List ModelProduct
  | [], _ => (0, [])
  | d :: ds, uuid =>
    if d.Uuid = uuid then (1, ds)
    else
      match deleteOneStore ds uuid with
      | (n, ds') => (n, d :: ds')

/-- One `product.Delete` call backed by a healthy store: MongoDB's
`DeleteOne` deletes the first matching document (zero matches is not a store
error), the code ignores the `DeleteResult`, and the call returns
`{Result: "success"}`. The second component is the collection afterwards. -/
def deleteViaStore (coll : List ModelProduct) (uuid : String) :
    Except GoError DeleteProductResponse × List ModelProduct :=
  (Delete none uuid, (deleteOneStore coll uuid).2)

/-- `$set` with a fully-populated `models.Product` overwrites every field of
the stored document: nothing of the prior version survives. -/
theorem applySet_eq (d r : ModelProduct) : applySet d r = r := rfl

/-- After `UpdateOne` with `{$set: r}`, the first document matching `r.Uuid`
is exactly `r`, provided some document matched. -/
theorem findFirst_updateOneStore (coll : List ModelProduct) (r : ModelProduct)
    (h : (findFirst coll r.Uuid).isSome = true) :
    findFirst (updateOneStore coll r) r.Uuid = some r := by
  induction coll with
  | nil => simp [findFirst] at h
  | cons d ds ih =>
    by_cases hd : d.Uuid = r.Uuid
    · simp [updateOneStore, hd, applySet_eq, findFirst]
    · have h' : (findFirst ds r.Uuid).isSome = true := by
        simpa [findFirst, hd] using h
      simp [updateOneStore, hd, findFirst, ih h']

/-- A zero-match `DeleteOne` reports `DeletedCount` 0 (and no error). -/
theorem deleteOneStore_no_match (coll : List ModelProduct) (uuid : String)
    (h : findFirst coll uuid = none) :
    (deleteOneStore coll uuid).1 = 0 := by
  induction coll with
  | nil => rfl
  | cons d ds ih =>
    by_cases hd : d.Uuid = uuid
    · simp [findFirst, hd] at h
    · have h' : findFirst ds uuid = none := by simpa [findFirst, hd] using h
      simp [deleteOneStore, hd, ih h']

/-- The list loop aborts with the wrapped decode error as soon as a document
fails to decode, whatever was accumulated before. -/
theorem listLoop_decode_error (ps : List ModelProduct) (acc : List ModelProduct)
    (e : GoError) (rest : List (Except GoError ModelProduct)) (fe : Option GoError) :
    listLoop (ps.map .ok ++ .error e :: rest) acc fe = .error (.wrap e "decoding product") := by
  induction ps generalizing acc with
  | nil => rfl
  | cons p ps ih => simpa [listLoop] using ih (acc ++ [p])

/-- When every document decodes but the exhausted cursor reports an error,
the loop returns the wrapped cursor error, discarding the decoded records. -/
theorem listLoop_cursor_error (ps : List ModelProduct) (acc : List ModelProduct)
    (e : GoError) :
    listLoop (ps.map .ok) acc (some e) = .error (.wrap e "cursor error") := by
  induction ps generalizing acc with
  | nil => rfl
  | cons p ps ih => simpa [listLoop] using ih (acc ++ [p])

/-- Round-trip of a whole attribute map through the two mapper loops. -/
theorem newValueAttributes_asInterfaceFields (kvs : List (String × StructpbValue)) :
    newValueAttributes (asInterfaceFields kvs) = .ok kvs := by
  induction kvs with
  | nil => rfl
  | cons kv rest ih =>
    obtain ⟨k, v⟩ := kv
    simp [asInterfaceFields, newValueAttributes, newValue_asInterface, ih]

/-- The attribute loop fails on the first unconvertible value, reporting that
attribute's key together with the library error. -/
theorem newValueAttributes_append_error (good : List (String × GoValue))
    (ws : List (String × StructpbValue)) (k : String) (v : GoValue)
    (rest : List (String × GoValue)) (m : String)
    (hgood : newValueAttributes good = .ok ws)
    (hbad : structpbNewValue v = .error m) :
    newValueAttributes (good ++ (k, v) :: rest) = .error (k, m) := by
  induction good generalizing ws with
  | nil => simp [newValueAttributes, hbad]
  | cons g gs ih =>
    obtain ⟨gk, gv⟩ := g
    cases hgv : structpbNewValue gv with
    | error e => simp [newValueAttributes, hgv] at hgood
    | ok w =>
      cases hgs : newValueAttributes gs with
      | error ke => simp [newValueAttributes, hgv, hgs] at hgood
      | ok ws' => simp [newValueAttributes, hgv, hgs, ih ws' hgs]

/-- Converting a list of records fails with the first record's conversion
error, unchanged, once the records before it all converted. -/
theorem listResponse_append_error (pre : List ModelProduct) (wsPre : List WireProduct)
    (db : ModelProduct) (post : List ModelProduct) (err : GoError)
    (hpre : ProductModelListToListProductsResponse pre = .ok wsPre)
    (hdb : ProductModelToProductProtobuf db = .error err) :
    ProductModelListToListProductsResponse (pre ++ db :: post) = .error err := by
  induction pre generalizing wsPre with
  | nil => simp [ProductModelListToListProductsResponse, hdb]
  | cons q qs ih =>
    cases hq : ProductModelToProductProtobuf q with
    | error e => simp [ProductModelListToListProductsResponse, hq] at hpre
    | ok w =>
      cases hqs : ProductModelListToListProductsResponse qs with
      | error e => simp [ProductModelListToListProductsResponse, hq, hqs] at hpre
      | ok ws' => simp [ProductModelListToListProductsResponse, hq, hqs, ih ws' hqs]

/-- C1: Codec round-trip: for every wire-typed product (uuid, name,
description, price, and an attributes map of representable dynamic values),
converting it to the record model with `ProductProtobufToProductModel` and
then back with `ProductModelToProductProtobuf` yields a wire product equal to
the original, with no attribute dropped or coerced. -/
theorem C1_mapper_roundtrip (p : WireProduct) (es : List (String × StructpbValue))
    (h : p.Attributes = some es) :
    ∃ dbProduct, ProductProtobufToProductModel p = .ok dbProduct ∧
      ProductModelToProductProtobuf dbProduct = .ok p := by
  refine ⟨_, rfl, ?_⟩
  obtain ⟨u, n, d, pr, attrs⟩ := p
  simp only at h
  subst h
  simp [ProductProtobufToProductModel, ProductModelToProductProtobuf, entriesOrNil,
    newValueAttributes_asInterfaceFields]

/-- Witness for C1 at a concrete product exercising every dynamic-value
variant, including nested list and struct attributes. -/
theorem C1_mapper_roundtrip_witness :
    (WireProduct.Attributes
        { Uuid := "1", Name := "Test Product Name",
          Description := "Test Product Description", Price := 999/100,
          Attributes := some [("color", .stringValue "blue"),
            ("size", .numberValue 12), ("onSale", .boolValue true),
            ("note", .nullValue),
            ("tags", .listValue [.stringValue "a", .numberValue 1]),
            ("dims", .structValue [("w", .numberValue 3)])] }
      = some [("color", .stringValue "blue"),
            ("size", .numberValue 12), ("onSale", .boolValue true),
            ("note", .nullValue),
            ("tags", .listValue [.stringValue "a", .numberValue 1]),
            ("dims", .structValue [("w", .numberValue 3)])]) ∧
    ∃ dbProduct,
      ProductProtobufToProductModel
        { Uuid := "1", Name := "Test Product Name",
          Description := "Test Product Description", Price := 999/100,
          Attributes := some [("color", .stringValue "blue"),
            ("size", .numberValue 12), ("onSale", .boolValue true),
            ("note", .nullValue),
            ("tags", .listValue [.stringValue "a", .numberValue 1]),
            ("dims", .structValue [("w", .numberValue 3)])] } = .ok dbProduct ∧
      ProductModelToProductProtobuf dbProduct = .ok
        { Uuid := "1", Name := "Test Product Name",
          Description := "Test Product Description", Price := 999/100,
          Attributes := some [("color", .stringValue "blue"),
            ("size", .numberValue 12), ("onSale", .boolValue true),
            ("note", .nullValue),
            ("tags", .listValue [.stringValue "a", .numberValue 1]),
            ("dims", .structValue [("w", .numberValue 3)])] } :=
  ⟨rfl, C1_mapper_roundtrip _ _ rfl⟩

/-- C2: Get's not-found outcome is a distinguished error: when the store
lookup reports `mongo.ErrNoDocuments`, `Get` fails with the not-found leaf
error; for every other store-lookup failure it fails with a persistence
error wrapping the underlying cause; and no not-found error equals any
wrapping error, so the two outcomes are never conflated. -/
theorem C2_get_notfound_distinguished (uuid : String) (e : GoError)
    (h : e ≠ GoError.errNoDocuments) :
    Get (.failure .errNoDocuments) uuid = .error (notFoundError uuid) ∧
    Get (.failure e) uuid
      = .error (.wrap e ("getting product with uuid \"" ++ uuid ++ "\"")) ∧
    (∀ u c m, notFoundError u ≠ GoError.wrap c m) := by
  refine ⟨by simp [Get], by simp [Get, h], ?_⟩
  intro u c m hEq
  simp [notFoundError] at hEq

/-- Witness for C2 with the uuid "uuid" and an arbitrary store failure. -/
theorem C2_get_notfound_distinguished_witness :
    (GoError.errorf "random error" ≠ GoError.errNoDocuments) ∧
    (Get (.failure .errNoDocuments) "uuid" = .error (notFoundError "uuid") ∧
     Get (.failure (.errorf "random error")) "uuid"
       = .error (.wrap (.errorf "random error")
           ("getting product with uuid \"" ++ "uuid" ++ "\"")) ∧
     (∀ u c m, notFoundError u ≠ GoError.wrap c m)) :=
  ⟨by decide, C2_get_notfound_distinguished "uuid" (.errorf "random error") (by decide)⟩

/-- C3: Create assigns the freshly generated non-empty identifier to the
record (overwriting any caller-supplied id), inserts the full record as the
one document write, and on success returns the record as persisted: its id is
the generated one and all non-id fields equal the input's; on store failure
it returns an error wrapping the underlying cause, after exactly one insert
attempt (no retry). -/
theorem C3_create_spec (gen : String) (p : ModelProduct) (e : GoError)
    (hgen : gen ≠ "") :
    ((Create gen none p).result = .ok (Create gen none p).insertedDoc ∧
     (Create gen none p).insertedDoc.Uuid = gen ∧
     (Create gen none p).insertedDoc.Uuid ≠ "" ∧
     (Create gen none p).insertedDoc.Name = p.Name ∧
     (Create gen none p).insertedDoc.Description = p.Description ∧
     (Create gen none p).insertedDoc.Price = p.Price ∧
     (Create gen none p).insertedDoc.Attributes = p.Attributes ∧
     (Create gen none p).insertCalls = 1) ∧
    ((Create gen (some e) p).result = .error (.wrap e "inserting product") ∧
     (Create gen (some e) p).insertCalls = 1) :=
  ⟨⟨rfl, rfl, hgen, rfl, rfl, rfl, rfl, rfl⟩, rfl, rfl⟩

/-- Witness for C3 at a concrete record that already carries a caller id. -/
theorem C3_create_spec_witness :
    ("3e8c4a2f-uuid" ≠ "") ∧
    (((Create "3e8c4a2f-uuid" none
        { Uuid := "caller-id", Name := "name", Description := "description",
          Price := 1, Attributes := some [("attr", .vString "value")] }).result
      = .ok (Create "3e8c4a2f-uuid" none
        { Uuid := "caller-id", Name := "name", Description := "description",
          Price := 1, Attributes := some [("attr", .vString "value")] }).insertedDoc ∧
      (Create "3e8c4a2f-uuid" none
        { Uuid := "caller-id", Name := "name", Description := "description",
          Price := 1, Attributes := some [("attr", .vString "value")] }).insertedDoc.Uuid
        = "3e8c4a2f-uuid" ∧
      (Create "3e8c4a2f-uuid" none
        { Uuid := "caller-id", Name := "name", Description := "description",
          Price := 1, Attributes := some [("attr", .vString "value")] }).insertedDoc.Uuid
        ≠ "" ∧
      (Create "3e8c4a2f-uuid" none
        { Uuid := "caller-id", Name := "name", Description := "description",
          Price := 1, Attributes := some [("attr", .vString "value")] }).insertedDoc.Name
        = ModelProduct.Name
          { Uuid := "caller-id", Name := "name", Description := "description",
            Price := 1, Attributes := some [("attr", .vString "value")] } ∧
      (Create "3e8c4a2f-uuid" none
        { Uuid := "caller-id", Name := "name", Description := "description",
          Price := 1, Attributes := some [("attr", .vString "value")] }).insertedDoc.Description
        = ModelProduct.Description
          { Uuid := "caller-id", Name := "name", Description := "description",
            Price := 1, Attributes := some [("attr", .vString "value")] } ∧
      (Create "3e8c4a2f-uuid" none
        { Uuid := "caller-id", Name := "name", Description := "description",
          Price := 1, Attributes := some [("attr", .vString "value")] }).insertedDoc.Price
        = ModelProduct.Price
          { Uuid := "caller-id", Name := "name", Description := "description",
            Price := 1, Attributes := some [("attr", .vString "value")] } ∧
      (Create "3e8c4a2f-uuid" none
        { Uuid := "caller-id", Name := "name", Description := "description",
          Price := 1, Attributes := some [("attr", .vString "value")] }).insertedDoc.Attributes
        = ModelProduct.Attributes
          { Uuid := "caller-id", Name := "name", Description := "description",
            Price := 1, Attributes := some [("attr", .vString "value")] } ∧
      (Create "3e8c4a2f-uuid" none
        { Uuid := "caller-id", Name := "name", Description := "description",
          Price := 1, Attributes := some [("attr", .vString "value")] }).insertCalls = 1) ∧
     ((Create "3e8c4a2f-uuid" (some (.errorf "random error"))
        { Uuid := "caller-id", Name := "name", Description := "description",
          Price := 1, Attributes := some [("attr", .vString "value")] }).result
      = .error (.wrap (.errorf "random error") "inserting product") ∧
      (Create "3e8c4a2f-uuid" (some (.errorf "random error"))
        { Uuid := "caller-id", Name := "name", Description := "description",
          Price := 1, Attributes := some [("attr", .vString "value")] }).insertCalls = 1)) :=
  ⟨by decide, C3_create_spec "3e8c4a2f-uuid" _ (.errorf "random error") (by decide)⟩

/-- C4: Update has full-replace semantics: `Update(r)` succeeds returning the
record as written; `$set` with the fully-populated record overwrites every
field of the stored document (a zero-valued field is stored as the zero
value, nothing of the prior version survives); and a subsequent `Get(r.Uuid)`
against the updated collection returns exactly `r`; on store failure Update
wraps the cause naming the uuid. -/
theorem C4_update_full_replace (coll : List ModelProduct) (r : ModelProduct)
    (e : GoError) (h : (findFirst coll r.Uuid).isSome = true) :
    Update none r = .ok r ∧
    (∀ d : ModelProduct, applySet d r = r) ∧
    Get (findOneStore (updateOneStore coll r) r.Uuid) r.Uuid = .ok r ∧
    Update (some e) r
      = .error (.wrap e ("updating product with uuid \"" ++ r.Uuid ++ "\"")) := by
  refine ⟨rfl, fun d => applySet_eq d r, ?_, rfl⟩
  simp [Get, findOneStore, findFirst_updateOneStore coll r h]

/-- Witness for C4: a one-document collection whose stored version carries
different values in every field (including a non-empty attribute map that the
update clears to empty, exercising zero-value replacement). -/
theorem C4_update_full_replace_witness :
    ((findFirst
        [{ Uuid := "uuid", Name := "old name", Description := "old description",
           Price := 7, Attributes := some [("color", .vString "blue")] }]
        (ModelProduct.Uuid
          { Uuid := "uuid", Name := "new name", Description := "",
            Price := 0, Attributes := some [] })).isSome = true) ∧
    (Update none
        { Uuid := "uuid", Name := "new name", Description := "",
          Price := 0, Attributes := some [] }
      = .ok { Uuid := "uuid", Name := "new name", Description := "",
              Price := 0, Attributes := some [] } ∧
     (∀ d : ModelProduct, applySet d
        { Uuid := "uuid", Name := "new name", Description := "",
          Price := 0, Attributes := some [] }
        = { Uuid := "uuid", Name := "new name", Description := "",
            Price := 0, Attributes := some [] }) ∧
     Get (findOneStore
          (updateOneStore
            [{ Uuid := "uuid", Name := "old name", Description := "old description",
               Price := 7, Attributes := some [("color", .vString "blue")] }]
            { Uuid := "uuid", Name := "new name", Description := "",
              Price := 0, Attributes := some [] })
          (ModelProduct.Uuid
            { Uuid := "uuid", Name := "new name", Description := "",
              Price := 0, Attributes := some [] }))
        (ModelProduct.Uuid
          { Uuid := "uuid", Name := "new name", Description := "",
            Price := 0, Attributes := some [] })
      = .ok { Uuid := "uuid", Name := "new name", Description := "",
              Price := 0, Attributes := some [] } ∧
     Update (some (.errorf "random error"))
        { Uuid := "uuid", Name := "new name", Description := "",
          Price := 0, Attributes := some [] }
      = .error (.wrap (.errorf "random error")
          ("updating product with uuid \"" ++ "uuid" ++ "\""))) :=
  ⟨rfl, C4_update_full_replace _ _ (.errorf "random error") rfl⟩

/-- C5: List fails atomically: a failed cursor open, a decode failure at any
element, and a terminal cursor error after partial consumption each make the
whole call return an error (already-produced records are discarded, never
returned); and an empty cursor with no error yields the empty list, not an
error. -/
theorem C5_list_atomic (e : GoError) (ps : List ModelProduct)
    (rest : List (Except GoError ModelProduct)) (fe : Option GoError) :
    (ListProducts (.error e)).1 = .error (.wrap e "finding products") ∧
    (ListProducts (.ok ⟨ps.map .ok ++ .error e :: rest, fe⟩)).1
      = .error (.wrap e "decoding product") ∧
    (ListProducts (.ok ⟨ps.map .ok, some e⟩)).1 = .error (.wrap e "cursor error") ∧
    (ListProducts (.ok ⟨[], none⟩)).1 = .ok [] :=
  ⟨rfl, by simpa [ListProducts] using listLoop_decode_error ps [] e rest fe,
   by simpa [ListProducts] using listLoop_cursor_error ps [] e, rfl⟩

/-- C6: Delete is idempotent: whenever the store delete does not itself
error, Delete returns the success indicator even if zero documents matched
(empty collection: `DeletedCount` 0, still success), and deleting the same id
twice succeeds both times; Delete fails only when the store delete reports a
failure, wrapping the cause and naming the id. -/
theorem C6_delete_idempotent (coll : List ModelProduct) (uuid : String) (e : GoError) :
    (deleteViaStore coll uuid).1 = .ok { Result := "success" } ∧
    (deleteViaStore (deleteViaStore coll uuid).2 uuid).1 = .ok { Result := "success" } ∧
    (deleteViaStore [] uuid).1 = .ok { Result := "success" } ∧
    (deleteOneStore ([] : List ModelProduct) uuid).1 = 0 ∧
    Delete (some e) uuid
      = .error (.wrap e ("deleting product with uuid \"" ++ uuid ++ "\"")) :=
  ⟨rfl, rfl, rfl, rfl, rfl⟩

/-- C7: When the dynamic-to-wire conversion of a record's attribute map hits
an unconvertible attribute value, the conversion fails with an error naming
that attribute, returns no output mapping at all, and does not silently skip
the bad attribute; the same error surfaces unchanged from the list-of-records
conversion. -/
theorem C7_conversion_error_attribution (dbProduct : ModelProduct)
    (good : List (String × GoValue)) (k : String) (v : GoValue)
    (rest : List (String × GoValue)) (m : String)
    (ws : List (String × StructpbValue))
    (pre post : List ModelProduct) (wsPre : List WireProduct)
    (hattrs : entriesOrNil dbProduct.Attributes = good ++ (k, v) :: rest)
    (hgood : newValueAttributes good = .ok ws)
    (hbad : structpbNewValue v = .error m)
    (hpre : ProductModelListToListProductsResponse pre = .ok wsPre) :
    ProductModelToProductProtobuf dbProduct
      = .error (.wrap (.errorf m) ("parsing attribute \"" ++ k ++ "\"")) ∧
    ProductModelListToListProductsResponse (pre ++ dbProduct :: post)
      = .error (.wrap (.errorf m) ("parsing attribute \"" ++ k ++ "\"")) := by
  have h1 : ProductModelToProductProtobuf dbProduct
      = .error (.wrap (.errorf m) ("parsing attribute \"" ++ k ++ "\"")) := by
    simp [ProductModelToProductProtobuf, hattrs,
      newValueAttributes_append_error good ws k v rest m hgood hbad]
  exact ⟨h1, listResponse_append_error pre wsPre dbProduct post _ hpre h1⟩

/-- Witness for C7: a record whose second attribute holds a Go channel (a
runtime type `structpb.NewValue` cannot convert), preceded in the list input
by one convertible record. -/
theorem C7_conversion_error_attribution_witness :
    (entriesOrNil (ModelProduct.Attributes
        { Uuid := "uuid", Name := "name", Description := "description",
          Price := 1,
          Attributes := some [("color", .vString "blue"),
                              ("bad", .vUnsupported "chan int")] })
      = [("color", .vString "blue")] ++ ("bad", GoValue.vUnsupported "chan int") :: []) ∧
    (newValueAttributes [("color", .vString "blue")]
      = .ok [("color", .stringValue "blue")]) ∧
    (structpbNewValue (.vUnsupported "chan int") = .error "invalid type: chan int") ∧
    (ProductModelListToListProductsResponse
        [{ Uuid := "ok", Name := "n", Description := "d", Price := 2,
           Attributes := some [] }]
      = .ok [{ Uuid := "ok", Name := "n", Description := "d", Price := 2,
               Attributes := some [] }]) ∧
    (ProductModelToProductProtobuf
        { Uuid := "uuid", Name := "name", Description := "description",
          Price := 1,
          Attributes := some [("color", .vString "blue"),
                              ("bad", .vUnsupported "chan int")] }
      = .error (.wrap (.errorf "invalid type: chan int")
          ("parsing attribute \"" ++ "bad" ++ "\"")) ∧
     ProductModelListToListProductsResponse
        ([{ Uuid := "ok", Name := "n", Description := "d", Price := 2,
            Attributes := some [] }] ++
          { Uuid := "uuid", Name := "name", Description := "description",
            Price := 1,
            Attributes := some [("color", .vString "blue"),
                                ("bad", .vUnsupported "chan int")] } :: [])
      = .error (.wrap (.errorf "invalid type: chan int")
          ("parsing attribute \"" ++ "bad" ++ "\""))) :=
  ⟨rfl, rfl, rfl, rfl,
   C7_conversion_error_attribution _ [("color", .vString "blue")] "bad"
     (.vUnsupported "chan int") [] "invalid type: chan int"
     [("color", .stringValue "blue")] _ [] _ rfl rfl rfl rfl⟩

/-- C8: The wire-to-model direction is total with no error path: for every
wire product, `ProductProtobufToProductModel` returns exactly one record
model with a nil error, and both a nil and an empty input attributes map
convert to an empty (non-nil) attributes map, never an absent field. -/
theorem C8_wire_to_model_total (p : WireProduct) :
    ProductProtobufToProductModel p
      = .ok { Uuid := p.Uuid, Name := p.Name, Description := p.Description,
              Price := p.Price,
              Attributes := some (asInterfaceFields (entriesOrNil p.Attributes)) } ∧
    ProductProtobufToProductModel { p with Attributes := none }
      = .ok { Uuid := p.Uuid, Name := p.Name, Description := p.Description,
              Price := p.Price, Attributes := some [] } ∧
    ProductProtobufToProductModel { p with Attributes := some [] }
      = .ok { Uuid := p.Uuid, Name := p.Name, Description := p.Description,
              Price := p.Price, Attributes := some [] } :=
  ⟨rfl, rfl, rfl⟩

/-- C9: List releases the cursor on every exit path: whenever the cursor is
acquired (`find` succeeded), `Close` is invoked exactly once before List
returns — whatever `cur` does afterwards: normal exhaustion, a decode
failure, or a terminal cursor error; on the exit path where opening the
cursor fails, no cursor was acquired and `Close` is never invoked. -/
theorem C9_list_closes_cursor (cur : CursorModel) (e : GoError) :
    (ListProducts (.ok cur)).2 = 1 ∧ (ListProducts (.error e)).2 = 0 :=
  ⟨rfl, rfl⟩

/-- C10: Create mutates its argument in place: the caller's record object has
its id overwritten with the generated identifier before the insert is
attempted (the inserted document is that same mutated record), on success the
returned record is that same object, and on insert failure the caller's
record still carries the newly generated id — the mutation is not rolled
back. -/
theorem C10_create_mutates_in_place (gen : String) (p : ModelProduct) (e : GoError) :
    (Create gen none p).callerRecord = { p with Uuid := gen } ∧
    (Create gen (some e) p).callerRecord = { p with Uuid := gen } ∧
    (Create gen none p).insertedDoc = (Create gen none p).callerRecord ∧
    (Create gen (some e) p).insertedDoc = (Create gen (some e) p).callerRecord ∧
    (Create gen none p).result = .ok (Create gen none p).callerRecord ∧
    (Create gen (some e) p).callerRecord.Uuid = gen :=
  ⟨rfl, rfl, rfl, rfl, rfl, rfl⟩
